import Mathlib

/-!
Shallow embedding of the umbrosa-py lambda handlers
(src/lambdas/webhook/handler.py, src/lambdas/get-context/handler.py,
src/lambdas/scheduled-calls/handler.py, src/lambdas/create-vapi-call/handler.py,
src/lambdas/shared/umbrosa_secrets.py).

Python/JSON values are modelled by `JVal`; the outcome of a Python call that
may raise is `Except String α` (`.error msg` models an exception carrying
`msg`); the Supabase table `call_transcripts` is a list of `TranscriptRow`
values, appended to by inserts; timestamps (`datetime.utcnow().isoformat()`
and the `created_at` ordering used by the store) are abstracted to `Nat`
time points, which preserves exactly the ordering the code relies on.
-/

mutual
/-- A Python/JSON value, as produced by `json.loads` and manipulated by the
handlers: `null`/`None`, booleans, integers, strings, lists, dicts. -/
inductive JVal where
  | null : JVal
  | bool (b : Bool) : JVal
  | num (n : Int) : JVal
  | str (s : String) : JVal
  | arr (xs : JList) : JVal
  | obj (fs : JFields) : JVal

/-- A list of `JVal`s (element list of a JSON array). -/
inductive JList where
  | nil : JList
  | cons (hd : JVal) (tl : JList) : JList

/-- The key/value entries of a JSON object (a Python dict). -/
inductive JFields where
  | nil : JFields
  | cons (k : String) (v : JVal) (tl : JFields) : JFields
end

deriving instance DecidableEq for JVal
deriving instance DecidableEq for JList
deriving instance DecidableEq for JFields
deriving instance Repr for JVal
deriving instance Repr for JList
deriving instance Repr for JFields

/-- Build a `JList` from an ordinary list (for writing payload literals). -/
def JList.ofList : List JVal → JList
  | [] => .nil
  | x :: xs => .cons x (JList.ofList xs)

/-- Build a `JFields` from an ordinary association list. -/
def JFields.ofList : List (String × JVal) → JFields
  | [] => .nil
  | (k, v) :: fs => .cons k v (JFields.ofList fs)

/-- A JSON array literal. -/
def jarr (xs : List JVal) : JVal := .arr (JList.ofList xs)

/-- A JSON object (Python dict) literal. -/
def jobj (fs : List (String × JVal)) : JVal := .obj (JFields.ofList fs)

/-- First-match lookup among a dict's fields (Python dicts have unique keys). -/
def jLookup : JFields → String → Option JVal
  | .nil, _ => none
  | .cons k v fs, key => if k = key then some v else jLookup fs key

/-- Python `d.get(key, default)`: succeeds only on a dict (`obj`); on any
other receiver it raises `AttributeError`, modelled as `.error`. -/
def pyGet (v : JVal) (key : String) (dflt : JVal) : Except String JVal :=
  match v with
  | .obj fs => .ok ((jLookup fs key).getD dflt)
  | _ => .error "AttributeError"

/-- Python truthiness (`if x:`): `None`, `False`, `0`, `""`, `[]` and the
empty dict are falsy, everything else is truthy. -/
def pyTruthy : JVal → Bool
  | .null => false
  | .bool b => b
  | .num n => n != 0
  | .str s => s != ""
  | .arr .nil => false
  | .arr (.cons _ _) => true
  | .obj .nil => false
  | .obj (.cons _ _ _) => true

/-- Python `a or b`: `a` if `a` is truthy, else `b`. -/
def pyOr (a b : JVal) : JVal :=
  if pyTruthy a then a else b

/-- Python `v == s` for a string literal `s` on the right: true exactly when
`v` is that string (Python equality across types is `False`). -/
def jIsStr (v : JVal) (s : String) : Bool :=
  match v with
  | .str t => t = s
  | _ => false

/-- A single-quote character, used by `pyRepr` for Python string repr. -/
def squote : Char := Char.ofNat 39

/-- Python `repr` of a string: the string wrapped in single quotes. -/
def strRepr (s : String) : String := squote.toString ++ s ++ squote.toString

mutual
/-- Python `str(v)` as applied inside an f-string: a string renders as
itself, any other value as its repr. -/
def pyStr : JVal → String
  | .str s => s
  | v => pyRepr v

/-- Python `repr(v)` for the values a webhook payload can hold: `None`,
`True`/`False`, integers, single-quoted strings, bracketed lists, braced
dicts. -/
def pyRepr : JVal → String
  | .null => "None"
  | .bool true => "True"
  | .bool false => "False"
  | .num n => toString n
  | .str s => strRepr s
  | .arr xs => "[" ++ String.intercalate ", " (pyReprList xs) ++ "]"
  | .obj fs => "\x7b" ++ String.intercalate ", " (pyReprFields fs) ++ "\x7d"

/-- repr of each element of a JSON array. -/
def pyReprList : JList → List String
  | .nil => []
  | .cons x xs => pyRepr x :: pyReprList xs

/-- repr of each `key: value` entry of a dict. -/
def pyReprFields : JFields → List String
  | .nil => []
  | .cons k v fs => (strRepr k ++ ": " ++ pyRepr v) :: pyReprFields fs
end

/-! ## The transcript store

One row of the Supabase table `call_transcripts` (spec §6): written by the
webhook handler, read by the get-context handler. The webhook insert supplies
no `interview_series_id`, so that column is `null` on rows it creates. -/

/-- A row of `call_transcripts`. -/
structure TranscriptRow where
  vapi_call_id : JVal
  transcript : JVal
  summary : JVal
  key_insights : JVal
  action_items : JVal
  context_summary : JVal
  interview_series_id : JVal
  created_at : Nat
deriving DecidableEq, Repr

namespace Webhook

/-- External behaviour surrounding one webhook invocation
(src/lambdas/webhook/handler.py): the outcomes of `get_credentials()`,
`get_config()`, `create_client`, `json.loads(event.get('body', ...))`, the
store insert, the id Supabase assigns to an inserted row, and the current
time. -/
structure World where
  creds : Except String String
  config : Except String JVal
  clientOk : Bool
  parsed : Except String JVal
  insertFails : Bool
  insertId : JVal
  now : Nat

/-- The JSON body of a webhook response: `json.dumps` of
`\x7b'status': 'ignored'\x7d`, of `\x7b'status': 'success', ...\x7d`, or of
`\x7b'error': str(e)\x7d`. -/
inductive RespBody where
  | ignored : RespBody
  | success (supabase_id : JVal) : RespBody
  | failure (msg : String) : RespBody
deriving DecidableEq, Repr

/-- The structured response the webhook handler returns. -/
structure HttpResponse where
  statusCode : Nat
  body : RespBody
deriving DecidableEq, Repr

/-- Lines 40–88 of src/lambdas/webhook/handler.py: the body of the `try`
block. Any `.error` it produces is an exception the `except` clause will
catch. On success it returns the new store contents and the response. -/
def tryBlock (w : World) (store : List TranscriptRow) :
    Except String (List TranscriptRow × HttpResponse) := do
  let body ← w.parsed
  let message ← pyGet body "message" (jobj [])
  let _call_data ← pyGet message "call" (jobj [])
  let mtype ← pyGet message "type" .null
  if !jIsStr mtype "end-of-call-report" then
    .ok (store, ⟨200, .ignored⟩)
  else do
    let vapi_call_id ← pyGet _call_data "id" .null
    let analysis ← pyGet _call_data "analysis" (jobj [])
    let transcript ← pyGet _call_data "transcript" (jarr [])
    let summary ← pyGet analysis "summary" (.str "")
    let key_insights ← pyGet analysis "actionItems" (jarr [])
    let action_items ← pyGet analysis "actionItems" (jarr [])
    let context_summary :=
      "Summary: " ++ pyStr summary ++ "\n\nKey Insights: " ++ pyStr key_insights
    let record : TranscriptRow :=
      { vapi_call_id := vapi_call_id
        transcript := transcript
        summary := summary
        key_insights := key_insights
        action_items := action_items
        context_summary := .str context_summary
        interview_series_id := .null
        created_at := w.now }
    if w.insertFails then
      .error "store insert failed"
    else
      .ok (store ++ [record], ⟨200, .success w.insertId⟩)

/-- src/lambdas/webhook/handler.py `lambda_handler`. Credential fetch, config
fetch, `config.get("supabase_url")` and client construction happen before the
`try` (lines 31–38), so their exceptions propagate (`.error` result); inside
the `try`, every exception is converted to a 500 response with an error
body (lines 90–95). -/
def lambda_handler (w : World) (store : List TranscriptRow) :
    Except String (List TranscriptRow × HttpResponse) := do
  let _creds ← w.creds
  let cfg ← w.config
  let _url ← pyGet cfg "supabase_url" .null
  if w.clientOk then
    match tryBlock w store with
    | .ok res => .ok res
    | .error e => .ok (store, ⟨500, .failure e⟩)
  else
    .error "create_client failed"

end Webhook

namespace GetContext

/-- External behaviour surrounding one get-context invocation
(src/lambdas/get-context/handler.py): outcome of `get_credentials()`,
of `create_client`, and whether the store query raises (and with what
message). -/
structure World where
  creds : Except String String
  clientOk : Bool
  storeFail : Option String

/-- The handler's return value `\x7b"context": ..., "interviewSeriesId": ...\x7d`. -/
structure Output where
  context : JVal
  interviewSeriesId : JVal
deriving DecidableEq, Repr

/-- The PostgREST filter `.eq('interview_series_id', sid)` on a text column:
a row matches when the column holds exactly the string `sid`; a SQL `null`
column value matches nothing. -/
def rowMatches (r : TranscriptRow) (sid : JVal) : Bool :=
  match r.interview_series_id, sid with
  | .str a, .str b => a = b
  | _, _ => false

/-- The rows the query's filter retains, in store order. -/
def matchingRows (store : List TranscriptRow) (sid : JVal) : List TranscriptRow :=
  store.filter (fun r => rowMatches r sid)

/-- `ORDER BY created_at DESC LIMIT 1` + `maybe_single()`: the row with the
greatest `created_at` (first such row on ties), or `none` on an empty
result set. -/
def pickLatest : List TranscriptRow → Option TranscriptRow
  | [] => none
  | r :: rs =>
    match pickLatest rs with
    | none => some r
    | some m => if m.created_at > r.created_at then some m else some r

/-- src/lambdas/get-context/handler.py `lambda_handler`. The event read and
credential/client setup (lines 24–32) precede the `try`; the `try` queries
the store and computes `context_summary or summary` of the single returned
row (lines 34–57); the `except` clause re-raises (lines 59–61), so a store
failure propagates unchanged. -/
def lambda_handler (w : World) (store : List TranscriptRow) (event : JVal) :
    Except String Output := do
  let sid ← pyGet event "interviewSeriesId" .null
  let _creds ← w.creds
  if w.clientOk then
    match w.storeFail with
    | some e => .error e
    | none =>
      match pickLatest (matchingRows store sid) with
      | some row => .ok ⟨pyOr row.context_summary row.summary, sid⟩
      | none => .ok ⟨.null, sid⟩
  else
    .error "create_client failed"

end GetContext

namespace ScheduledCalls

/-- The environment variables src/lambdas/scheduled-calls/handler.py reads
with `os.getenv` (each `none` means unset, so the literal fallback in the
source applies). -/
structure Env where
  maria_assistant_id : Option String
  vi_assistant_id : Option String
  interview_series_marcus : Option String
  interview_series_sue : Option String
deriving DecidableEq, Repr

/-- One entry of the static call list built at lines 30–51 of
src/lambdas/scheduled-calls/handler.py. -/
structure CallDef where
  id : String
  name : String
  assistantId : String
  phoneNumberId : JVal
  customerNumber : String
  interviewSeriesId : String
  promptName : String
  batch : String
deriving DecidableEq, Repr

/-- The static call list (lines 30–51), given the environment and the value
of `config.get("vapi_phone_number_id")`. -/
def callDirectory (env : Env) (phone : JVal) : List CallDef :=
  [ { id := "f024a1ed-343e-4363-8b2d-9daf6af31110-0900"
      name := "Daily 9:00 AM call to +61467807718"
      assistantId := env.maria_assistant_id.getD "f024a1ed-343e-4363-8b2d-9daf6af31110"
      phoneNumberId := phone
      customerNumber := "+61467807718"
      interviewSeriesId := env.interview_series_marcus.getD "a6462580-007c-4e31-805a-acd5de1dfee3"
      promptName := "marcus-daily-checkin"
      batch := "morning" },
    { id := "43950926-3935-4853-8475-14da102748b5-1620"
      name := "Daily 4:20 PM call to +61415874467"
      assistantId := env.vi_assistant_id.getD "43950926-3935-4853-8475-14da102748b5"
      phoneNumberId := phone
      customerNumber := "+61415874467"
      interviewSeriesId := env.interview_series_sue.getD "70b87980-eae2-49b0-98cc-036867a6a1fd"
      promptName := "sue-daily-checkin"
      batch := "afternoon" } ]

/-- src/lambdas/scheduled-calls/handler.py `lambda_handler`: reads
`event.get('batch')`, fetches config (a failure propagates), builds the
static list, and applies the filter `[c for c in calls if c.get("batch") ==
batch]` only when `batch` is truthy (line 54: `if batch:`). The Python
return value `\x7b"calls": calls\x7d` is modelled as the list itself. -/
def lambda_handler (env : Env) (config : Except String JVal) (event : JVal) :
    Except String (List CallDef) := do
  let batch ← pyGet event "batch" .null
  let cfg ← config
  let phone ← pyGet cfg "vapi_phone_number_id" .null
  let calls := callDirectory env phone
  let filtered := if pyTruthy batch then calls.filter (fun c => jIsStr batch c.batch) else calls
  .ok filtered

end ScheduledCalls

namespace CreateVapiCall

/-- External behaviour surrounding one create-vapi-call invocation
(src/lambdas/create-vapi-call/handler.py): the outcome of
`get_credentials()` and of `vapi.calls.create(...)` (the call object the
voice API returns, or the exception it raises). -/
structure World where
  creds : Except String String
  callResult : Except String JVal

/-- The request handed to `vapi.calls.create` at lines 54–59. -/
structure CallRequest where
  phone_number_id : JVal
  customer_number : JVal
  assistant_id : JVal
  assistant_overrides : JVal
deriving DecidableEq, Repr

/-- The handler's return value (lines 63–67). -/
structure Output where
  vapiCallId : JVal
  customerNumber : JVal
  status : String
deriving DecidableEq, Repr

/-- Lines 45–50: `assistant_overrides = \x7b"variableValues": \x7b\x7d\x7d`,
then `previousContext` is added only when `previous_context` is truthy. -/
def buildOverrides (previous_context : JVal) : JVal :=
  if pyTruthy previous_context then
    jobj [("variableValues", jobj [("previousContext", previous_context)])]
  else
    jobj [("variableValues", jobj [])]

/-- src/lambdas/create-vapi-call/handler.py `lambda_handler`. Event reads and
credential fetch (lines 30–38) precede the `try`; the `except` clause
re-raises (lines 69–71), so a voice-API failure propagates. On success the
result pairs the request that was sent with the returned output. -/
def lambda_handler (w : World) (event : JVal) :
    Except String (CallRequest × Output) := do
  let assistant_id ← pyGet event "assistantId" .null
  let phone_number_id ← pyGet event "phoneNumberId" .null
  let customer_number ← pyGet event "customerNumber" .null
  let previous_context ← pyGet event "context" .null
  let _creds ← w.creds
  let req : CallRequest :=
    { phone_number_id := phone_number_id
      customer_number := customer_number
      assistant_id := assistant_id
      assistant_overrides := buildOverrides previous_context }
  match w.callResult with
  | .error e => .error e
  | .ok call => do
    let cid ← pyGet call "id" .null
    .ok (req, { vapiCallId := cid, customerNumber := customer_number, status := "created" })

end CreateVapiCall

/-! ## Observations and concrete scenario data used by the claims -/

/-- Whether a modelled Python execution completed without an uncaught
exception. -/
def noRaise {α : Type} : Except String α → Bool
  | .ok _ => true
  | .error _ => false

/-- The store contents after one webhook delivery (unchanged when the
handler raises or ignores the event). -/
def Webhook.deliver (w : Webhook.World) (store : List TranscriptRow) : List TranscriptRow :=
  match Webhook.lambda_handler w store with
  | .ok (st, _) => st
  | .error _ => store

/-- Whether `pre` is an initial segment of the first list. -/
def hasPre : List Char → List Char → Bool
  | _, [] => true
  | [], _ :: _ => false
  | c :: cs, d :: ds => c == d && hasPre cs ds

/-- Whether `needle` occurs somewhere inside the first list. -/
def hasSub : List Char → List Char → Bool
  | [], needle => needle.isEmpty
  | c :: cs, needle => hasPre (c :: cs) needle || hasSub cs needle

/-- Whether `needle` occurs as a contiguous substring of `hay`. -/
def strHas (hay needle : String) : Bool := hasSub hay.toList needle.toList

/-- The concrete end-of-call-report payload from the spec's scenario:
`analysis.summary = "ok"`, `analysis.actionItems = ["call back tomorrow"]`. -/
def samplePayload : JVal :=
  jobj [("message", jobj [
    ("type", .str "end-of-call-report"),
    ("call", jobj [
      ("id", .str "call-1"),
      ("analysis", jobj [
        ("summary", .str "ok"),
        ("actionItems", jarr [.str "call back tomorrow"])])])])]

/-- A webhook world in which setup succeeds, the body parses to
`samplePayload`, and the insert succeeds with Supabase id 7 at time 5. -/
def sampleWorld : Webhook.World :=
  ⟨.ok "service-key", .ok (jobj [("supabase_url", .str "https://example.supabase.co")]),
    true, .ok samplePayload, false, .num 7, 5⟩

/-- A stored row for series "s" whose `context_summary` and `summary` are
both the empty string. -/
def bothEmptyRow : TranscriptRow :=
  ⟨.str "c1", jarr [], .str "", jarr [], jarr [], .str "", .str "s", 0⟩

/-- An older stored row for series "s" (created at time 3). -/
def olderRow : TranscriptRow :=
  ⟨.str "cA", jarr [], .str "older summary", jarr [], jarr [], .str "older context",
    .str "s", 3⟩

/-- A newer stored row for series "s" (created at time 5). -/
def newerRow : TranscriptRow :=
  ⟨.str "cB", jarr [], .str "newer summary", jarr [], jarr [], .str "newer context",
    .str "s", 5⟩

/-! ## Helper lemmas -/

theorem exBind_ok {α β : Type} (a : α) (f : α → Except String β) :
    (Except.ok a : Except String α) >>= f = f a := rfl

theorem exBind_error {α β : Type} (e : String) (f : α → Except String β) :
    (Except.error e : Except String α) >>= f = Except.error e := rfl

/-! ## Claims about the Call Directory (scheduled-calls handler) -/

/-- C4: for every batch label b in \x7bmorning, afternoon\x7d, the handler
returns exactly the statically configured call definitions whose batch field
equals b, in declaration order; with no batch label it returns the full
configured set in the same order. -/
theorem c4_list_calls_batch_filter (env : ScheduledCalls.Env)
    (config : Except String JVal) (cfg phone : JVal) (b : String)
    (hc : config = .ok cfg)
    (hp : pyGet cfg "vapi_phone_number_id" .null = .ok phone)
    (hb : b = "morning" ∨ b = "afternoon") :
    ScheduledCalls.lambda_handler env config (jobj [("batch", .str b)]) =
      .ok ((ScheduledCalls.callDirectory env phone).filter (fun c => c.batch = b)) ∧
    ScheduledCalls.lambda_handler env config (jobj []) =
      .ok (ScheduledCalls.callDirectory env phone) := by
  have hb' : b ≠ "" := by rcases hb with h | h <;> simp [h]
  have hev : pyGet (jobj [("batch", JVal.str b)]) "batch" .null = .ok (.str b) := rfl
  have hev2 : pyGet (jobj []) "batch" .null = .ok .null := rfl
  constructor
  · simp only [ScheduledCalls.lambda_handler, hev, hc, hp, exBind_ok]
    simp only [pyTruthy, bne_iff_ne, ne_eq, hb', not_false_eq_true, if_true]
    have : ∀ c ∈ ScheduledCalls.callDirectory env phone,
        jIsStr (JVal.str b) c.batch = decide (c.batch = b) := by
      intro c _
      rw [show jIsStr (JVal.str b) c.batch = decide (b = c.batch) from rfl, decide_eq_decide]
      exact eq_comm
    rw [List.filter_congr this]
  · simp only [ScheduledCalls.lambda_handler, hev2, hc, hp, exBind_ok]
    simp [pyTruthy]

/-- Witness for C4: with both environment overrides unset and an empty config
dict, triggering batch "morning" against the directory (one morning and one
afternoon call) yields exactly the one call whose batch is "morning". -/
theorem c4_witness :
    ScheduledCalls.lambda_handler ⟨none, none, none, none⟩ (.ok (jobj []))
        (jobj [("batch", .str "morning")]) =
      .ok ((ScheduledCalls.callDirectory ⟨none, none, none, none⟩ .null).filter
        (fun c => c.batch = "morning")) ∧
    ((ScheduledCalls.callDirectory ⟨none, none, none, none⟩ .null).filter
        (fun c => c.batch = "morning")).map (fun c => c.batch) = ["morning"] :=
  ⟨(c4_list_calls_batch_filter ⟨none, none, none, none⟩ (.ok (jobj [])) (jobj []) .null
      "morning" rfl rfl (Or.inl rfl)).1, by decide⟩

/-- C7 counterexample: with the empty-string batch label the handler returns
the full two-element directory, not an empty sequence — `if batch:` treats
`""` as absent, so the filter is skipped. -/
theorem c7_counterexample :
    ScheduledCalls.lambda_handler ⟨none, none, none, none⟩ (.ok (jobj []))
        (jobj [("batch", .str "")]) =
      .ok (ScheduledCalls.callDirectory ⟨none, none, none, none⟩ .null) ∧
    (ScheduledCalls.callDirectory ⟨none, none, none, none⟩ .null).length = 2 ∧
    ScheduledCalls.callDirectory ⟨none, none, none, none⟩ .null ≠
      ([] : List ScheduledCalls.CallDef) :=
  ⟨rfl, rfl, by decide⟩

/-- C7 amended: every unknown non-empty batch label yields an empty sequence
and no error; the empty-string label instead skips the filter and yields the
full configured list. -/
theorem c7_amended_unknown_batch_empty (env : ScheduledCalls.Env)
    (config : Except String JVal) (cfg phone : JVal) (b : String)
    (hc : config = .ok cfg)
    (hp : pyGet cfg "vapi_phone_number_id" .null = .ok phone)
    (hne : b ≠ "") (hm : b ≠ "morning") (ha : b ≠ "afternoon") :
    ScheduledCalls.lambda_handler env config (jobj [("batch", .str b)]) = .ok [] := by
  have hev : pyGet (jobj [("batch", JVal.str b)]) "batch" .null = .ok (.str b) := rfl
  simp only [ScheduledCalls.lambda_handler, hev, hc, hp, exBind_ok]
  simp only [pyTruthy, bne_iff_ne, ne_eq, hne, not_false_eq_true, if_true]
  simp only [ScheduledCalls.callDirectory, jIsStr]
  simp
  exact ⟨hm, ha⟩

/-- Witness for C7 amended: the unknown label "evening" yields the empty
list. -/
theorem c7_witness :
    ScheduledCalls.lambda_handler ⟨none, none, none, none⟩ (.ok (jobj []))
        (jobj [("batch", .str "evening")]) = .ok [] :=
  c7_amended_unknown_batch_empty ⟨none, none, none, none⟩ (.ok (jobj [])) (jobj []) .null
    "evening" rfl rfl (by decide) (by decide) (by decide)

/-- C10: when the batch label is the empty string the handler skips the batch
filter entirely (empty string behaves like an absent label) and returns the
full configured list of call definitions. -/
theorem c10_empty_batch_returns_all (env : ScheduledCalls.Env)
    (config : Except String JVal) (cfg phone : JVal)
    (hc : config = .ok cfg)
    (hp : pyGet cfg "vapi_phone_number_id" .null = .ok phone) :
    ScheduledCalls.lambda_handler env config (jobj [("batch", .str "")]) =
      .ok (ScheduledCalls.callDirectory env phone) := by
  have hev : pyGet (jobj [("batch", JVal.str "")]) "batch" .null = .ok (.str "") := rfl
  simp only [ScheduledCalls.lambda_handler, hev, hc, hp, exBind_ok]
  simp [pyTruthy]

/-- Witness for C10: concrete run with the empty-string label returns both
configured calls. -/
theorem c10_witness :
    ScheduledCalls.lambda_handler ⟨none, none, none, none⟩ (.ok (jobj []))
        (jobj [("batch", .str "")]) =
      .ok (ScheduledCalls.callDirectory ⟨none, none, none, none⟩ .null) :=
  c10_empty_batch_returns_all ⟨none, none, none, none⟩ (.ok (jobj [])) (jobj []) .null rfl rfl

/-- Shared helper: the end-of-call-report path of the webhook try block
appends exactly one record and answers 200/success. -/
theorem Webhook.tryBlock_eocr (w : Webhook.World) (store : List TranscriptRow)
    (body message call_data cid analysis transcript s ki : JVal)
    (hp : w.parsed = .ok body)
    (hmsg : pyGet body "message" (jobj []) = .ok message)
    (hcd : pyGet message "call" (jobj []) = .ok call_data)
    (htype : pyGet message "type" .null = .ok (.str "end-of-call-report"))
    (hid : pyGet call_data "id" .null = .ok cid)
    (han : pyGet call_data "analysis" (jobj []) = .ok analysis)
    (htr : pyGet call_data "transcript" (jarr []) = .ok transcript)
    (hsum : pyGet analysis "summary" (.str "") = .ok s)
    (hki : pyGet analysis "actionItems" (jarr []) = .ok ki)
    (hins : w.insertFails = false) :
    Webhook.tryBlock w store = .ok (store ++
      [{ vapi_call_id := cid
         transcript := transcript
         summary := s
         key_insights := ki
         action_items := ki
         context_summary :=
           .str ("Summary: " ++ pyStr s ++ "\n\nKey Insights: " ++ pyStr ki)
         interview_series_id := .null
         created_at := w.now }],
      ⟨200, .success w.insertId⟩) := by
  simp only [Webhook.tryBlock, hp, hmsg, hcd, htype, hid, han, htr, hsum, hki, hins,
    exBind_ok, jIsStr]
  simp

/-- Shared helper: every normal (non-raising) exit of the webhook try block
carries status code 200. -/
theorem Webhook.tryBlock_status (w : Webhook.World) (store st : List TranscriptRow)
    (r : Webhook.HttpResponse) (h : Webhook.tryBlock w store = .ok (st, r)) :
    r.statusCode = 200 := by
  simp only [Webhook.tryBlock, Bind.bind, Except.bind] at h
  repeat' split at h
  all_goals simp_all
  all_goals (obtain ⟨-, h2⟩ := h; rw [← h2])

/-! ## Claims about the Webhook Ingestor -/

/-- C1 counterexample: when credential retrieval fails, the webhook handler
raises an uncaught exception instead of returning a structured 500 response —
`get_credentials()` runs before the `try` block, so the claim's "including
failures of credential/config retrieval and store-client construction" part
is false of the code. -/
theorem c1_counterexample :
    Webhook.lambda_handler
        ⟨.error "secrets manager unreachable", .ok (jobj []), true, .ok (jobj []),
          false, .null, 0⟩ [] = .error "secrets manager unreachable" ∧
    noRaise (Webhook.lambda_handler
        ⟨.error "secrets manager unreachable", .ok (jobj []), true, .ok (jobj []),
          false, .null, 0⟩ []) = false :=
  ⟨rfl, rfl⟩

/-- C1 amended: once credential retrieval, config retrieval and store-client
construction have succeeded, the webhook handler never raises: every
invocation returns a structured response, either a 200 or a 500 whose body
is a JSON error object. (Failures before that point propagate uncaught, as
`c1_counterexample` shows.) -/
theorem c1_amended_structured_response_after_setup (w : Webhook.World)
    (store : List TranscriptRow) (key : String) (cfg url : JVal)
    (hcreds : w.creds = .ok key) (hcfg : w.config = .ok cfg)
    (hurl : pyGet cfg "supabase_url" .null = .ok url) (hclient : w.clientOk = true) :
    ∃ st r, Webhook.lambda_handler w store = .ok (st, r) ∧
      (r.statusCode = 200 ∨ (r.statusCode = 500 ∧ ∃ e, r.body = .failure e)) := by
  simp only [Webhook.lambda_handler, hcreds, hcfg, hurl, hclient, exBind_ok, if_true]
  cases ht : Webhook.tryBlock w store with
  | ok res =>
    obtain ⟨st, r⟩ := res
    exact ⟨st, r, rfl, Or.inl (Webhook.tryBlock_status w store st r ht)⟩
  | error e =>
    exact ⟨store, ⟨500, .failure e⟩, rfl, Or.inr ⟨rfl, e, rfl⟩⟩

/-- Witness for C1 amended: with setup succeeding and a malformed JSON body,
the handler still returns a structured response. -/
theorem c1_witness :
    ∃ st r, Webhook.lambda_handler
        ⟨.ok "service-key", .ok (jobj [("supabase_url", .str "u")]), true,
          .error "Expecting value", false, .null, 0⟩ [] = .ok (st, r) ∧
      (r.statusCode = 200 ∨ (r.statusCode = 500 ∧ ∃ e, r.body = .failure e)) :=
  c1_amended_structured_response_after_setup
    ⟨.ok "service-key", .ok (jobj [("supabase_url", .str "u")]), true,
      .error "Expecting value", false, .null, 0⟩ []
    "service-key" (jobj [("supabase_url", .str "u")]) (.str "u") rfl rfl rfl rfl

/-- C2: for every end-of-call-report payload, ingest appends exactly one new
record to the transcript store, whose `context_summary` is
`"Summary: " + str(summary) + "\n\n" + "Key Insights: " + str(key_insights)`. -/
theorem c2_eocr_inserts_one_record (w : Webhook.World) (store : List TranscriptRow)
    (key : String) (cfg url body message call_data cid analysis transcript s ki : JVal)
    (hcreds : w.creds = .ok key) (hcfg : w.config = .ok cfg)
    (hurl : pyGet cfg "supabase_url" .null = .ok url) (hclient : w.clientOk = true)
    (hp : w.parsed = .ok body)
    (hmsg : pyGet body "message" (jobj []) = .ok message)
    (hcd : pyGet message "call" (jobj []) = .ok call_data)
    (htype : pyGet message "type" .null = .ok (.str "end-of-call-report"))
    (hid : pyGet call_data "id" .null = .ok cid)
    (han : pyGet call_data "analysis" (jobj []) = .ok analysis)
    (htr : pyGet call_data "transcript" (jarr []) = .ok transcript)
    (hsum : pyGet analysis "summary" (.str "") = .ok s)
    (hki : pyGet analysis "actionItems" (jarr []) = .ok ki)
    (hins : w.insertFails = false) :
    Webhook.lambda_handler w store = .ok (store ++
      [{ vapi_call_id := cid
         transcript := transcript
         summary := s
         key_insights := ki
         action_items := ki
         context_summary :=
           .str ("Summary: " ++ pyStr s ++ "\n\nKey Insights: " ++ pyStr ki)
         interview_series_id := .null
         created_at := w.now }],
      ⟨200, .success w.insertId⟩) := by
  simp only [Webhook.lambda_handler, hcreds, hcfg, hurl, hclient, exBind_ok, if_true]
  rw [Webhook.tryBlock_eocr w store body message call_data cid analysis transcript s ki
    hp hmsg hcd htype hid han htr hsum hki hins]

/-- Witness for C2: the spec's concrete scenario — summary "ok", actionItems
["call back tomorrow"] — stores one record with summary "ok", action_items
["call back tomorrow"], and a context_summary containing both strings. -/
theorem c2_witness :
    Webhook.lambda_handler sampleWorld [] = .ok
      ([{ vapi_call_id := .str "call-1"
          transcript := jarr []
          summary := .str "ok"
          key_insights := jarr [.str "call back tomorrow"]
          action_items := jarr [.str "call back tomorrow"]
          context_summary := .str ("Summary: " ++ pyStr (.str "ok") ++
            "\n\nKey Insights: " ++ pyStr (jarr [.str "call back tomorrow"]))
          interview_series_id := .null
          created_at := 5 }],
        ⟨200, .success (.num 7)⟩) ∧
    strHas ("Summary: " ++ pyStr (.str "ok") ++
      "\n\nKey Insights: " ++ pyStr (jarr [.str "call back tomorrow"])) "ok" = true ∧
    strHas ("Summary: " ++ pyStr (.str "ok") ++
      "\n\nKey Insights: " ++ pyStr (jarr [.str "call back tomorrow"]))
      "call back tomorrow" = true :=
  ⟨c2_eocr_inserts_one_record sampleWorld [] "service-key"
      (jobj [("supabase_url", .str "https://example.supabase.co")])
      (.str "https://example.supabase.co") samplePayload
      (jobj [("type", .str "end-of-call-report"),
             ("call", jobj [("id", .str "call-1"),
               ("analysis", jobj [("summary", .str "ok"),
                 ("actionItems", jarr [.str "call back tomorrow"])])])])
      (jobj [("id", .str "call-1"),
        ("analysis", jobj [("summary", .str "ok"),
          ("actionItems", jarr [.str "call back tomorrow"])])])
      (.str "call-1")
      (jobj [("summary", .str "ok"), ("actionItems", jarr [.str "call back tomorrow"])])
      (jarr []) (.str "ok") (jarr [.str "call back tomorrow"])
      rfl rfl rfl rfl rfl rfl rfl rfl rfl rfl rfl rfl rfl rfl,
    by decide, by decide⟩

/-- C5: for every payload whose message.type is anything other than
"end-of-call-report", ingest leaves the store unchanged and returns a 200
response with status ignored; repeating the delivery any number of times
still leaves the store unchanged. -/
theorem c5_non_eocr_is_idempotent_noop (w : Webhook.World) (store : List TranscriptRow)
    (key : String) (cfg url body message call_data t : JVal)
    (hcreds : w.creds = .ok key) (hcfg : w.config = .ok cfg)
    (hurl : pyGet cfg "supabase_url" .null = .ok url) (hclient : w.clientOk = true)
    (hp : w.parsed = .ok body)
    (hmsg : pyGet body "message" (jobj []) = .ok message)
    (hcd : pyGet message "call" (jobj []) = .ok call_data)
    (htype : pyGet message "type" .null = .ok t)
    (hne : jIsStr t "end-of-call-report" = false) :
    Webhook.lambda_handler w store = .ok (store, ⟨200, .ignored⟩) ∧
    ∀ n : Nat, Nat.iterate (Webhook.deliver w) n store = store := by
  have h1 : Webhook.lambda_handler w store = .ok (store, ⟨200, .ignored⟩) := by
    simp only [Webhook.lambda_handler, hcreds, hcfg, hurl, hclient, exBind_ok, if_true]
    simp only [Webhook.tryBlock, hp, hmsg, hcd, htype, hne, exBind_ok]
    simp
  refine ⟨h1, ?_⟩
  intro n
  induction n with
  | zero => rfl
  | succ n ih =>
    rw [Function.iterate_succ_apply', ih, Webhook.deliver, h1]

/-- Witness for C5: a "status-update" event is ignored with a 200, and three
repeated deliveries leave the empty store empty. -/
theorem c5_witness :
    Webhook.lambda_handler
        ⟨.ok "service-key", .ok (jobj [("supabase_url", .str "u")]), true,
          .ok (jobj [("message", jobj [("type", .str "status-update")])]),
          false, .null, 0⟩ [] = .ok ([], ⟨200, .ignored⟩) ∧
    Nat.iterate (Webhook.deliver
        ⟨.ok "service-key", .ok (jobj [("supabase_url", .str "u")]), true,
          .ok (jobj [("message", jobj [("type", .str "status-update")])]),
          false, .null, 0⟩) 3 [] = [] :=
  ⟨(c5_non_eocr_is_idempotent_noop
      ⟨.ok "service-key", .ok (jobj [("supabase_url", .str "u")]), true,
        .ok (jobj [("message", jobj [("type", .str "status-update")])]),
        false, .null, 0⟩ []
      "service-key" (jobj [("supabase_url", .str "u")]) (.str "u")
      (jobj [("message", jobj [("type", .str "status-update")])])
      (jobj [("type", .str "status-update")]) (jobj []) (.str "status-update")
      rfl rfl rfl rfl rfl rfl rfl rfl (by decide)).1,
   (c5_non_eocr_is_idempotent_noop
      ⟨.ok "service-key", .ok (jobj [("supabase_url", .str "u")]), true,
        .ok (jobj [("message", jobj [("type", .str "status-update")])]),
        false, .null, 0⟩ []
      "service-key" (jobj [("supabase_url", .str "u")]) (.str "u")
      (jobj [("message", jobj [("type", .str "status-update")])])
      (jobj [("type", .str "status-update")]) (jobj []) (.str "status-update")
      rfl rfl rfl rfl rfl rfl rfl rfl (by decide)).2 3⟩

/-- C8: for every ingested end-of-call-report, the stored record's
key_insights equals its action_items, both taken from the payload's
analysis.actionItems (the `pyGet` default `[]` applies when absent). -/
theorem c8_key_insights_from_action_items (w : Webhook.World)
    (store : List TranscriptRow)
    (key : String) (cfg url body message call_data cid analysis transcript s ki : JVal)
    (hcreds : w.creds = .ok key) (hcfg : w.config = .ok cfg)
    (hurl : pyGet cfg "supabase_url" .null = .ok url) (hclient : w.clientOk = true)
    (hp : w.parsed = .ok body)
    (hmsg : pyGet body "message" (jobj []) = .ok message)
    (hcd : pyGet message "call" (jobj []) = .ok call_data)
    (htype : pyGet message "type" .null = .ok (.str "end-of-call-report"))
    (hid : pyGet call_data "id" .null = .ok cid)
    (han : pyGet call_data "analysis" (jobj []) = .ok analysis)
    (htr : pyGet call_data "transcript" (jarr []) = .ok transcript)
    (hsum : pyGet analysis "summary" (.str "") = .ok s)
    (hki : pyGet analysis "actionItems" (jarr []) = .ok ki)
    (hins : w.insertFails = false) :
    ∃ resp rec, Webhook.lambda_handler w store = .ok (store ++ [rec], resp) ∧
      rec.key_insights = rec.action_items ∧ rec.key_insights = ki := by
  refine ⟨⟨200, .success w.insertId⟩,
    { vapi_call_id := cid
      transcript := transcript
      summary := s
      key_insights := ki
      action_items := ki
      context_summary :=
        .str ("Summary: " ++ pyStr s ++ "\n\nKey Insights: " ++ pyStr ki)
      interview_series_id := .null
      created_at := w.now }, ?_, rfl, rfl⟩
  simp only [Webhook.lambda_handler, hcreds, hcfg, hurl, hclient, exBind_ok, if_true]
  rw [Webhook.tryBlock_eocr w store body message call_data cid analysis transcript s ki
    hp hmsg hcd htype hid han htr hsum hki hins]

/-- Witness for C8: a report whose analysis has no actionItems key stores a
record whose key_insights and action_items are both the default empty
list. -/
theorem c8_witness :
    ∃ resp rec, Webhook.lambda_handler
        ⟨.ok "service-key", .ok (jobj [("supabase_url", .str "u")]), true,
          .ok (jobj [("message", jobj [("type", .str "end-of-call-report"),
            ("call", jobj [("id", .str "call-2"),
              ("analysis", jobj [("summary", .str "hi")])])])]),
          false, .num 9, 6⟩ [] = .ok ([] ++ [rec], resp) ∧
      rec.key_insights = rec.action_items ∧ rec.key_insights = jarr [] :=
  c8_key_insights_from_action_items
    ⟨.ok "service-key", .ok (jobj [("supabase_url", .str "u")]), true,
      .ok (jobj [("message", jobj [("type", .str "end-of-call-report"),
        ("call", jobj [("id", .str "call-2"),
          ("analysis", jobj [("summary", .str "hi")])])])]),
      false, .num 9, 6⟩ []
    "service-key" (jobj [("supabase_url", .str "u")]) (.str "u")
    (jobj [("message", jobj [("type", .str "end-of-call-report"),
      ("call", jobj [("id", .str "call-2"),
        ("analysis", jobj [("summary", .str "hi")])])])])
    (jobj [("type", .str "end-of-call-report"),
      ("call", jobj [("id", .str "call-2"),
        ("analysis", jobj [("summary", .str "hi")])])])
    (jobj [("id", .str "call-2"), ("analysis", jobj [("summary", .str "hi")])])
    (.str "call-2")
    (jobj [("summary", .str "hi")])
    (jarr []) (.str "hi") (jarr [])
    rfl rfl rfl rfl rfl rfl rfl rfl rfl rfl rfl rfl rfl rfl

/-! ## Claims about Context Lookup (get-context handler) -/

/-- Shared helper: `pickLatest` yields `none` only on the empty list. -/
theorem GetContext.pickLatest_none (l : List TranscriptRow)
    (h : GetContext.pickLatest l = none) : l = [] := by
  cases l with
  | nil => rfl
  | cons a tl =>
    simp only [GetContext.pickLatest] at h
    cases hpl : GetContext.pickLatest tl with
    | none => simp only [hpl] at h; cases h
    | some m => simp only [hpl] at h; split at h <;> cases h

/-- Shared helper: whatever `pickLatest` returns is a member of the list. -/
theorem GetContext.pickLatest_mem (l : List TranscriptRow) (m : TranscriptRow)
    (h : GetContext.pickLatest l = some m) : m ∈ l := by
  induction l generalizing m with
  | nil => cases h
  | cons a tl ih =>
    simp only [GetContext.pickLatest] at h
    cases hpl : GetContext.pickLatest tl with
    | none =>
      simp only [hpl] at h
      cases h
      exact List.mem_cons_self a tl
    | some m' =>
      simp only [hpl] at h
      split at h
      · cases h; exact List.mem_cons_of_mem a (ih _ hpl)
      · cases h; exact List.mem_cons_self a tl

/-- Shared helper: when one row strictly dominates all other rows by
`created_at`, `pickLatest` returns it. -/
theorem GetContext.pickLatest_max (l : List TranscriptRow) (r : TranscriptRow)
    (hmem : r ∈ l)
    (hmax : ∀ r' ∈ l, r' ≠ r → r'.created_at < r.created_at) :
    GetContext.pickLatest l = some r := by
  induction l with
  | nil => cases hmem
  | cons a tl ih =>
    simp only [GetContext.pickLatest]
    cases hpl : GetContext.pickLatest tl with
    | none =>
      have htl : tl = [] := GetContext.pickLatest_none tl hpl
      subst htl
      simp only [hpl]
      rcases List.mem_cons.mp hmem with h | h
      · rw [h]
      · cases h
    | some m =>
      have hm : m ∈ tl := GetContext.pickLatest_mem tl m hpl
      simp only [hpl]
      rcases List.mem_cons.mp hmem with hra | hrt
      · subst hra
        have hng : ¬(m.created_at > r.created_at) := by
          by_cases hmr : m = r
          · rw [hmr]; exact lt_irrefl _
          · exact not_lt_of_gt (hmax m (List.mem_cons_of_mem r hm) hmr)
        rw [if_neg hng]
      · by_cases hra : r = a
        · subst hra
          have hng : ¬(m.created_at > r.created_at) := by
            by_cases hmr : m = r
            · rw [hmr]; exact lt_irrefl _
            · exact not_lt_of_gt (hmax m (List.mem_cons_of_mem r hm) hmr)
          rw [if_neg hng]
        · have hmr : GetContext.pickLatest tl = some r := by
            apply ih hrt
            intro r' hr' hner
            exact hmax r' (List.mem_cons_of_mem a hr') hner
          rw [hpl] at hmr
          cases hmr
          have hlt : a.created_at < r.created_at :=
            hmax a (List.mem_cons_self a tl) (Ne.symm hra)
          rw [if_pos hlt]

/-- C3 counterexample: when the most recent record's context_summary and
summary are both the empty string, get_latest_context returns the empty
string (`'' or ''` in Python), not an absent (`null`) context as the claim
requires. -/
theorem c3_counterexample :
    GetContext.lambda_handler ⟨.ok "key", true, none⟩ [bothEmptyRow]
        (jobj [("interviewSeriesId", .str "s")]) = .ok ⟨.str "", .str "s"⟩ ∧
    pyTruthy bothEmptyRow.context_summary = false ∧
    pyTruthy bothEmptyRow.summary = false ∧
    JVal.str "" ≠ JVal.null :=
  ⟨rfl, rfl, rfl, by decide⟩

/-- C3 amended: with a working store, get_latest_context returns `null` when
no record matches the series id; otherwise it returns
`context_summary or summary` of the strictly most recent matching record —
the context_summary when that is truthy (non-empty), else the summary; when
both fields are falsy the returned context is falsy (absent or the empty
string, the latter when summary is `""`). -/
theorem c3_amended_latest_context (w : GetContext.World) (store : List TranscriptRow)
    (event sid : JVal) (key : String)
    (hsid : pyGet event "interviewSeriesId" .null = .ok sid)
    (hcreds : w.creds = .ok key) (hclient : w.clientOk = true)
    (hq : w.storeFail = none) :
    (GetContext.matchingRows store sid = [] →
      GetContext.lambda_handler w store event = .ok ⟨.null, sid⟩) ∧
    (∀ r ∈ GetContext.matchingRows store sid,
      (∀ r' ∈ GetContext.matchingRows store sid, r' ≠ r → r'.created_at < r.created_at) →
      GetContext.lambda_handler w store event = .ok ⟨pyOr r.context_summary r.summary, sid⟩ ∧
      (pyTruthy r.context_summary = true → pyOr r.context_summary r.summary = r.context_summary) ∧
      (pyTruthy r.context_summary = false → pyOr r.context_summary r.summary = r.summary) ∧
      (pyTruthy r.context_summary = false → pyTruthy r.summary = false →
        pyTruthy (pyOr r.context_summary r.summary) = false)) := by
  constructor
  · intro hempty
    simp only [GetContext.lambda_handler, hsid, hcreds, hclient, hq, exBind_ok, if_true,
      hempty]
    rfl
  · intro r hr hmaxr
    have hpick : GetContext.pickLatest (GetContext.matchingRows store sid) = some r :=
      GetContext.pickLatest_max _ r hr hmaxr
    refine ⟨?_, ?_, ?_, ?_⟩
    · simp only [GetContext.lambda_handler, hsid, hcreds, hclient, hq, exBind_ok, if_true,
        hpick]
    · intro ht; simp [pyOr, ht]
    · intro hf; simp [pyOr, hf]
    · intro hf hs; simp [pyOr, hf, hs]

/-- Witness for C3 amended: with an older and a newer row for series "s",
the handler returns the newer row's `context_summary or summary`. -/
theorem c3_witness :
    GetContext.lambda_handler ⟨.ok "key", true, none⟩ [olderRow, newerRow]
        (jobj [("interviewSeriesId", .str "s")]) =
      .ok ⟨pyOr newerRow.context_summary newerRow.summary, .str "s"⟩ :=
  ((c3_amended_latest_context ⟨.ok "key", true, none⟩ [olderRow, newerRow]
      (jobj [("interviewSeriesId", .str "s")]) (.str "s") "key"
      rfl rfl rfl rfl).2 newerRow (by decide) (by decide)).1

/-- C9: when the transcript store query fails, get_latest_context re-raises —
the failure propagates out unchanged, with no retry and no fallback value. -/
theorem c9_store_failure_propagates (w : GetContext.World) (store : List TranscriptRow)
    (event sid : JVal) (key msg : String)
    (hsid : pyGet event "interviewSeriesId" .null = .ok sid)
    (hcreds : w.creds = .ok key) (hclient : w.clientOk = true)
    (hfail : w.storeFail = some msg) :
    GetContext.lambda_handler w store event = .error msg := by
  simp only [GetContext.lambda_handler, hsid, hcreds, hclient, hfail, exBind_ok, if_true]

/-- Witness for C9: a concrete failing query propagates its message. -/
theorem c9_witness :
    GetContext.lambda_handler ⟨.ok "key", true, some "connection refused"⟩ []
        (jobj [("interviewSeriesId", .str "s")]) = .error "connection refused" :=
  c9_store_failure_propagates ⟨.ok "key", true, some "connection refused"⟩ []
    (jobj [("interviewSeriesId", .str "s")]) (.str "s") "key" "connection refused"
    rfl rfl rfl rfl

/-! ## Claim about the Call Dispatcher (create-vapi-call handler) -/

/-- C6: when the event carries a present, non-empty context string, the
request sent to the voice API has assistant_overrides whose
variableValues.previousContext equals that string; when context is absent
(null), variableValues stays empty — no previousContext key is attached. -/
theorem c6_context_override (w : CreateVapiCall.World) (event : JVal)
    (key : String) (callObj cid aid pid cnum ctx : JVal)
    (hcreds : w.creds = .ok key) (hcall : w.callResult = .ok callObj)
    (hcid : pyGet callObj "id" .null = .ok cid)
    (haid : pyGet event "assistantId" .null = .ok aid)
    (hpid : pyGet event "phoneNumberId" .null = .ok pid)
    (hnum : pyGet event "customerNumber" .null = .ok cnum)
    (hctx : pyGet event "context" .null = .ok ctx) :
    (∀ s : String, ctx = .str s → s ≠ "" →
      CreateVapiCall.lambda_handler w event = .ok
        (⟨pid, cnum, aid, jobj [("variableValues", jobj [("previousContext", .str s)])]⟩,
         ⟨cid, cnum, "created"⟩)) ∧
    (ctx = .null →
      CreateVapiCall.lambda_handler w event = .ok
        (⟨pid, cnum, aid, jobj [("variableValues", jobj [])]⟩,
         ⟨cid, cnum, "created"⟩)) := by
  constructor
  · intro s hs hne
    subst hs
    simp only [CreateVapiCall.lambda_handler, haid, hpid, hnum, hctx, hcreds, hcall,
      hcid, exBind_ok, CreateVapiCall.buildOverrides]
    simp [pyTruthy, hne]
  · intro hn
    subst hn
    simp only [CreateVapiCall.lambda_handler, haid, hpid, hnum, hctx, hcreds, hcall,
      hcid, exBind_ok, CreateVapiCall.buildOverrides]
    simp [pyTruthy]

/-- Witness for C6: the spec's concrete scenario — context "prior notes"
produces a request whose overrides carry
variableValues.previousContext = "prior notes". -/
theorem c6_witness :
    CreateVapiCall.lambda_handler ⟨.ok "api-key", .ok (jobj [("id", .str "vc-1")])⟩
        (jobj [("assistantId", .str "A"), ("phoneNumberId", .str "P"),
               ("customerNumber", .str "+61467807718"), ("context", .str "prior notes")]) =
      .ok (⟨.str "P", .str "+61467807718", .str "A",
              jobj [("variableValues", jobj [("previousContext", .str "prior notes")])]⟩,
           ⟨.str "vc-1", .str "+61467807718", "created"⟩) :=
  (c6_context_override ⟨.ok "api-key", .ok (jobj [("id", .str "vc-1")])⟩
      (jobj [("assistantId", .str "A"), ("phoneNumberId", .str "P"),
             ("customerNumber", .str "+61467807718"), ("context", .str "prior notes")])
      "api-key" (jobj [("id", .str "vc-1")]) (.str "vc-1") (.str "A") (.str "P")
      (.str "+61467807718") (.str "prior notes")
      rfl rfl rfl rfl rfl rfl rfl).1 "prior notes" rfl (by decide)
